import Mathlib

set_option linter.unusedVariables false

/- Shallow embedding of jrossi/go-junos (junos.go), a NETCONF client
library for Junos devices. The payload templates, the session-fact
resolver (NewSession) and the Gateway operations (RunCommand,
CommitHistory, GetConfig, Config, Lock, Rescue, Files) are translated
here from the Go source. The SSH/NETCONF transport and Go's
xml.Unmarshal are external collaborators of the library and therefore
appear as explicit parameters (an Except-valued execution result, and
unmarshal functions). Go panics (out-of-range indexing, indexing a nil
regex match) are modelled as Option failure / a dedicated outcome. -/

namespace GoJunos

/-- Fault record of a NETCONF reply (netconf.RPCError); junos.go only
consumes its Message field. -/
structure RPCError where
  message : String
deriving Repr, DecidableEq

/-- NETCONF reply (netconf.RPCReply): the raw XML payload plus the
fault list. `errors = none` models a nil Go slice and `some l` a
non-nil slice `l`; junos.go guards with `reply.Errors != nil` and then
returns the first element from inside a range loop, so a non-nil empty
slice passes the guard but the loop body never runs. -/
structure RPCReply where
  data : String
  errors : Option (List RPCError)
deriving Repr, DecidableEq

/-- Behaviour of the repeated Go fragment
`if reply.Errors != nil { for _, m := range reply.Errors { return ..m.Message.. } }`:
an early fault return happens exactly when the slice is non-nil and
non-empty, and then carries the first fault. -/
def firstFault : Option (List RPCError) → Option RPCError
  | some (m :: _) => some m
  | _ => none

/-- Go strings.Contains on character lists: `sub` occurs inside `l`
(the empty string is contained in everything). -/
def listContainsSub (l sub : List Char) : Bool :=
  sub.isPrefixOf l ||
    match l with
    | [] => false
    | _ :: xs => listContainsSub xs sub

/-- Go strings.Contains(s, sub). -/
def containsSubstr (s sub : String) : Bool :=
  listContainsSub s.data sub.data

/-- Go strings.ToUpper (rune-wise upper-casing). -/
def goToUpper (s : String) : String := String.mk (s.data.map Char.toUpper)

/-- Splitting a character list at every occurrence of the separator
(there is always at least one piece, as with Go strings.Split). -/
def splitOnCharAux (c : Char) : List Char → List (List Char)
  | [] => [[]]
  | x :: xs =>
    if x = c then [] :: splitOnCharAux c xs
    else
      match splitOnCharAux c xs with
      | [] => [[x]]
      | h :: t => (x :: h) :: t

/-- Go strings.Split(s, sep) for a one-character separator (the only
use in junos.go is the ">" separator of GetConfig). -/
def goSplit (s : String) (c : Char) : List String :=
  (splitOnCharAux c s.data).map String.mk

/-- Go strings.Replace(s, newline, empty, -1): removes every newline. -/
def goRemoveNewlines (s : String) : String :=
  String.mk (s.data.filter (fun c => c ≠ '\n'))

/-- Go strings.TrimRight(path, slash): drops every trailing slash. -/
def goTrimRightSlashes (s : String) : String :=
  String.mk ((s.data.reverse.dropWhile (fun c => c = '/')).reverse)

/-- Splits a character list around the LAST occurrence of `c`:
`breakLast c l = some (b, a)` iff `l = b ++ c :: a` and `c` does not
occur in `a`; `none` iff `c` does not occur in `l`. -/
def breakLast (c : Char) : List Char → Option (List Char × List Char)
  | [] => none
  | x :: xs =>
    match breakLast c xs with
    | some (b, a) => some (x :: b, a)
    | none => if x = c then some ([], xs) else none

/-- Capture group of the Go regular expression used by NewSession
(`rex := regexp.MustCompile` of caret, dot-star, literal open bracket,
a captured dot-star, literal close bracket) as computed by
rex.FindStringSubmatch: the match is anchored at the start and RE2's
dot does not cross a newline, so the whole match lies in the first
line; greedy matching captures the text strictly between the last open
bracket preceding the last close bracket of that line and that close
bracket. `none` models FindStringSubmatch returning nil (no match),
which the Go code then indexes, panicking. -/
def rexFindSubmatch (s : String) : Option String :=
  let line := s.data.takeWhile (fun c => c ≠ '\n')
  match breakLast ']' line with
  | none => none
  | some (beforeClose, _) =>
    match breakLast '[' beforeClose with
    | none => none
    | some (_, inner) => some (String.mk inner)

/-- Go struct versionPackageInfo (fields from the package-information
XML fragment). -/
structure versionPackageInfo where
  packageName : List String
  softwareVersion : List String
deriving Repr, DecidableEq

/-- Go struct versionRouteEngine (one software-information fragment). -/
structure versionRouteEngine where
  hostname : String
  platform : String
  packageInfo : List versionPackageInfo
deriving Repr, DecidableEq

/-- Go struct RoutingEngine: per-engine hardware model and software
version. -/
structure RoutingEngine where
  model : String
  version : String
deriving Repr, DecidableEq

/-- Go struct Junos minus the transport handle (the netconf.Session
field belongs to the external transport collaborator). -/
structure Junos where
  hostname : String
  routingEngines : Nat
  platform : List RoutingEngine
deriving Repr, DecidableEq

/-- Per-engine fact extraction performed inside NewSession:
`version := rex.FindStringSubmatch(facts.PackageInfo[0].SoftwareVersion[0])`,
`model := strings.ToUpper(facts.Platform)`, engine = {model, version[1]}.
Out-of-range indexing or indexing a nil match panics in Go; modelled as
`none`. -/
def parseEngine (e : versionRouteEngine) : Option RoutingEngine :=
  match e.packageInfo with
  | [] => none
  | pk :: _ =>
    match pk.softwareVersion with
    | [] => none
    | sv :: _ =>
      match rexFindSubmatch sv with
      | none => none
      | some v => some { model := goToUpper e.platform, version := v }

/-- The multi-engine loop of NewSession
(`for i := 0; i < numRE; i++ { ... res = append(res, ...) }`):
extracts engines in device order, failing if any engine fails. -/
def parseEngines : List versionRouteEngine → Option (List RoutingEngine)
  | [] => some []
  | e :: es =>
    match parseEngine e with
    | none => none
    | some r =>
      match parseEngines es with
      | none => none
      | some rs => some (r :: rs)

/-- Unmarshalled shape of the get-software-information reply, as
selected by NewSession's substring probe on the raw data: either a
multi-routing-engine-results wrapper (list of fragments) or a single
software-information fragment. -/
inductive ParsedReply where
  | multi (res : List versionRouteEngine)
  | single (re : versionRouteEngine)
deriving Repr, DecidableEq

/-- Fact assembly of NewSession after unmarshalling. Multi branch:
`numRE := len(facts.RE)`, `hostname := facts.RE[0].Hostname` (panics
when the list is empty, hence the head? bind), then the engine loop;
RoutingEngines = numRE. Single branch: one engine, RoutingEngines = 1. -/
def newSessionParse : ParsedReply → Option Junos
  | .multi facts =>
    match facts.head? with
    | none => none
    | some first =>
      match parseEngines facts with
      | none => none
      | some res =>
        some { hostname := first.hostname, routingEngines := facts.length,
               platform := res }
  | .single facts =>
    match parseEngine facts with
    | none => none
    | some re =>
      some { hostname := facts.hostname, routingEngines := 1, platform := [re] }

/-- Outcome of NewSession, distinguishing the three ways the Go
function can leave: log.Fatal (process termination), a runtime panic
(nil-match or out-of-range indexing during fact extraction), or a
normal `return (junos, err)`. -/
inductive NSOutcome where
  | fatalExit (msg : String)
  | panicked
  | returns (result : Except String Junos)
deriving Repr

/-- Whether an NSOutcome is a normal function return (of either a
Junos value or an error), as opposed to process termination or panic. -/
def NSOutcome.isReturns : NSOutcome → Bool
  | .returns _ => true
  | _ => false

/-- NewSession, with the external collaborators as parameters:
`dialResult` is netconf.DialSSH, `execResult` the reply of executing
rpcVersion, and the two unmarshal parameters stand for xml.Unmarshal
into versionRouteEngines / versionRouteEngine. Control flow follows the
Go source: a dial error goes to log.Fatal; an exec error or a first
fault is returned; the multi- versus single-engine branch is chosen by
a substring probe for "multi-routing-engine-results" on the raw reply
data; fact extraction then runs newSessionParse. -/
def newSessionOutcome (dialResult : Except String Unit)
    (execResult : Except String RPCReply)
    (unmarshalMulti : String → Except String (List versionRouteEngine))
    (unmarshalSingle : String → Except String versionRouteEngine) : NSOutcome :=
  match dialResult with
  | .error e => .fatalExit e
  | .ok _ =>
    match execResult with
    | .error e => .returns (.error e)
    | .ok reply =>
      match firstFault reply.errors with
      | some m => .returns (.error m.message)
      | none =>
        if containsSubstr reply.data "multi-routing-engine-results" then
          match unmarshalMulti reply.data with
          | .error e => .returns (.error e)
          | .ok res =>
            match newSessionParse (.multi res) with
            | some j => .returns (.ok j)
            | none => .panicked
        else
          match unmarshalSingle reply.data with
          | .error e => .returns (.error e)
          | .ok re =>
            match newSessionParse (.single re) with
            | some j => .returns (.ok j)
            | none => .panicked

/-- RPC template rpcCommand. -/
def rpcCommand (cmd : String) : String :=
  "<command format=\"text\">" ++ cmd ++ "</command>"

/-- RPC template rpcCommandXML. -/
def rpcCommandXML (cmd : String) : String :=
  "<command format=\"xml\">" ++ cmd ++ "</command>"

/-- RPC template rpcConfigFileSet. -/
def rpcConfigFileSet (s : String) : String :=
  "<load-configuration action=\"set\" format=\"text\"><configuration-set>" ++ s ++
    "</configuration-set></load-configuration>"

/-- RPC template rpcConfigFileText. -/
def rpcConfigFileText (s : String) : String :=
  "<load-configuration format=\"text\"><configuration-text>" ++ s ++
    "</configuration-text></load-configuration>"

/-- RPC template rpcConfigFileXML. -/
def rpcConfigFileXML (s : String) : String :=
  "<load-configuration format=\"xml\"><configuration>" ++ s ++
    "</configuration></load-configuration>"

/-- RPC template rpcConfigURLSet. -/
def rpcConfigURLSet (url : String) : String :=
  "<load-configuration action=\"set\" format=\"text\" url=\"" ++ url ++ "\"/>"

/-- RPC template rpcConfigURLText. -/
def rpcConfigURLText (url : String) : String :=
  "<load-configuration format=\"text\" url=\"" ++ url ++ "\"/>"

/-- RPC template rpcConfigURLXML. -/
def rpcConfigURLXML (url : String) : String :=
  "<load-configuration format=\"xml\" url=\"" ++ url ++ "\"/>"

/-- RPC template rpcConfigStringSet (same text as rpcConfigFileSet in
the source). -/
def rpcConfigStringSet (s : String) : String :=
  "<load-configuration action=\"set\" format=\"text\"><configuration-set>" ++ s ++
    "</configuration-set></load-configuration>"

/-- RPC template rpcConfigStringText. -/
def rpcConfigStringText (s : String) : String :=
  "<load-configuration format=\"text\"><configuration-text>" ++ s ++
    "</configuration-text></load-configuration>"

/-- RPC template rpcConfigStringXML. -/
def rpcConfigStringXML (s : String) : String :=
  "<load-configuration format=\"xml\"><configuration>" ++ s ++
    "</configuration></load-configuration>"

/-- RPC template rpcRescueSave. -/
def rpcRescueSave : String := "<request-save-rescue-configuration/>"

/-- RPC template rpcRescueDelete. -/
def rpcRescueDelete : String := "<request-delete-rescue-configuration/>"

/-- RPC template rpcFileList. -/
def rpcFileList (path : String) : String :=
  "<file-list><detail/><path>" ++ path ++ "</path></file-list>"

/-- RPC template rpcCommitHistory. -/
def rpcCommitHistory : String := "<get-commit-information/>"

/-- RPC template rpcLock. -/
def rpcLock : String := "<lock><target><candidate/></target></lock>"

/-- Generic diagnostic text errMessage used by RunCommand and Files. -/
def errMessage : String :=
  "No output available. Please check the syntax of your command."

/-- Payload built by RunCommand: the text template by default,
overwritten with the XML template exactly when format is "xml". -/
def runCommandPayload (cmd format : String) : String :=
  if format = "xml" then rpcCommandXML cmd else rpcCommand cmd

/-- Result of RunCommand after the payload is executed, as the Go pair
(string, error) with error modelled as Option String (none = nil).
`execResult` is j.Session.Exec; `unmarshal` models xml.Unmarshal into
commandXML followed by reading its innerxml Config field. Control flow
follows the source: exec error returns (errMessage, err); a first fault
returns (errMessage, its message); empty reply data returns
(errMessage, nil); format "text" unwraps the text carrier; otherwise
the raw data is returned. -/
def runCommand (format : String) (execResult : Except String RPCReply)
    (unmarshal : String → Except String String) : String × Option String :=
  match execResult with
  | .error e => (errMessage, some e)
  | .ok reply =>
    match firstFault reply.errors with
    | some m => (errMessage, some m.message)
    | none =>
      if reply.data = "" then (errMessage, none)
      else if format = "text" then
        match unmarshal reply.data with
        | .error e => ("", some e)
        | .ok out => (out, none)
      else (reply.data, none)

/-- Go struct CommitEntry (one commit-history record). -/
structure CommitEntry where
  sequence : Int
  user : String
  method : String
  timestamp : String
deriving Repr, DecidableEq

/-- Go struct CommitHistory. -/
structure CommitHistory where
  entries : List CommitEntry
deriving Repr, DecidableEq

/-- Method CommitHistory: executes rpcCommitHistory; an exec error or a
first fault is returned; empty reply data yields the fixed error
"could not load commit history"; otherwise the unmarshalled history is
returned. -/
def commitHistoryCall (execResult : Except String RPCReply)
    (unmarshal : String → Except String CommitHistory) : Except String CommitHistory :=
  match execResult with
  | .error e => .error e
  | .ok reply =>
    match firstFault reply.errors with
    | some m => .error m.message
    | none =>
      if reply.data = "" then .error "could not load commit history"
      else
        match unmarshal reply.data with
        | .error e => .error e
        | .ok h => .ok h

/-- Opening tags emitted by GetConfig's first loop
(`for i := 0; i < nSecs; i++`): one open tag per component in order. -/
def openTags : List String → String
  | [] => ""
  | t :: ts => "<" ++ t ++ ">" ++ openTags ts

/-- Closing tags emitted by GetConfig's second loop
(`for j := nSecs - 1; j >= 0; j--`): one close tag per component in
reverse order. -/
def closeTags : List String → String
  | [] => ""
  | t :: ts => closeTags ts ++ "</" ++ t ++ ">"

/-- Payload built by GetConfig: header with the format attribute; for
section "full" the configuration element is closed immediately;
otherwise the ">"-separated section path is split, all components but
the last become nested opening tags, the last becomes a self-closing
tag, and the closing tags are emitted in reverse order. The Go branch
guard `nSecs >= 0` always holds because strings.Split returns at least
one element. -/
def getConfigCommand (sect format : String) : String :=
  let secs := goSplit sect '>'
  let command := "<get-configuration format=\"" ++ format ++ "\"><configuration>"
  if sect = "full" then
    command ++ "</configuration></get-configuration>"
  else
    command ++ openTags secs.dropLast ++ "<" ++ secs.getLastD "" ++ "/>" ++
      closeTags secs.dropLast ++ "</configuration></get-configuration>"

/-- The Go `path interface{}` argument of Config: a single string or a
list of strings (other dynamic types leave the command empty in the
source and are not modelled). -/
inductive ConfigInput where
  | str (s : String)
  | strList (l : List String)
deriving Repr, DecidableEq

/-- Payload built by Config for one syntax, given the three templates
of that syntax. For a single string the source first assigns the URL
template when the string contains "tp://", but then unconditionally
overwrites the command: with the literal-string template when
ioutil.ReadFile fails, or with the file template applied to the file's
contents when it succeeds (`fs` models the filesystem; the source's
second ReadFile of the same path is the same lookup). For a list of
strings the lines are joined with a newline into the literal-string
template. -/
def configCommandWith (urlTpl strTpl fileTpl : String → String)
    (fs : String → Except String String) : ConfigInput → String
  | .str p =>
    let command := if containsSubstr p "tp://" then urlTpl p else ""
    match fs p with
    | .error _ => strTpl p
    | .ok contents => fileTpl contents
  | .strList l => strTpl (String.intercalate "\n" l)

/-- Payload built by Config, dispatching on the format switch of the
source; a format other than "set", "text" or "xml" leaves the command
empty. -/
def configCommand (fs : String → Except String String)
    (input : ConfigInput) (format : String) : String :=
  if format = "set" then
    configCommandWith rpcConfigURLSet rpcConfigStringSet rpcConfigFileSet fs input
  else if format = "text" then
    configCommandWith rpcConfigURLText rpcConfigStringText rpcConfigFileText fs input
  else if format = "xml" then
    configCommandWith rpcConfigURLXML rpcConfigStringXML rpcConfigFileXML fs input
  else ""

/-- Method Lock (and the shared shape of Unlock, Reboot, Rescue after
the exec): error or first fault message, as Option String (none =
nil error, the success path). -/
def lock (execResult : Except String RPCReply) : Option String :=
  match execResult with
  | .error e => some e
  | .ok reply =>
    match firstFault reply.errors with
    | some m => some m.message
    | none => none

/-- Payload chosen by Rescue: the save template unless the action is
exactly "delete". -/
def rescueCommand (action : String) : String :=
  if action = "delete" then rpcRescueDelete else rpcRescueSave

/-- Method Rescue: builds the payload from the action, executes it
through the session (modelled as a function from payload to exec
result) and reports an exec error or the first fault. -/
def rescue (action : String)
    (exec : String → Except String RPCReply) : Option String :=
  let command := rescueCommand action
  match exec command with
  | .error e => some e
  | .ok reply =>
    match firstFault reply.errors with
    | some m => some m.message
    | none => none

/-- Go struct File (per-file metadata of a directory listing). -/
structure File where
  name : String
  permissionsText : String
  owner : String
  group : String
  size : String
  dateText : String
deriving Repr, DecidableEq

/-- Go struct FileList; the error field is the optional output element
of the reply, the device-side signal that the path does not exist. -/
structure FileList where
  path : String
  total : String
  files : List File
  error : String
deriving Repr, DecidableEq

/-- Method Files: trims trailing slashes, builds rpcFileList on the
re-slashed directory, executes it; an exec error, a first fault or
empty reply data is an error; newlines are stripped from the data
before unmarshalling; a FileList whose error field is non-empty yields
the "No such file or directory" error mentioning the requested path;
otherwise the FileList is returned. -/
def filesCall (path : String) (execResult : Except String RPCReply)
    (unmarshal : String → Except String FileList) : Except String FileList :=
  let dir := goTrimRightSlashes path
  let _command := rpcFileList (dir ++ "/")
  match execResult with
  | .error e => .error e
  | .ok reply =>
    match firstFault reply.errors with
    | some m => .error m.message
    | none =>
      if reply.data = "" then .error errMessage
      else
        match unmarshal (goRemoveNewlines reply.data) with
        | .error e => .error e
        | .ok fl =>
          if 0 < fl.error.length then
            .error (path ++ ": No such file or directory")
          else .ok fl

/-- Fixture: a single software-information fragment as unmarshalled
from the single-engine reply of the specification's fixture. -/
def fixtureSingle : versionRouteEngine :=
  { hostname := "r1", platform := "mx960",
    packageInfo := [{ packageName := ["junos"],
                      softwareVersion := ["JUNOS Base OS boot [20.4R3.8]"] }] }

/-- Raw data of the single-engine fixture reply; it does not contain
the multi-routing-engine-results marker, so NewSession's substring
probe picks the single-engine branch. -/
def fixtureSingleData : String :=
  "<software-information><host-name>r1</host-name><product-model>mx960</product-model></software-information>"

/-- Helper: the engine loop of NewSession yields exactly one parsed
engine per input fragment. -/
theorem parseEngines_length (res : List versionRouteEngine)
    (l : List RoutingEngine) (h : parseEngines res = some l) :
    l.length = res.length := by
  induction res generalizing l with
  | nil =>
    simp only [parseEngines, Option.some.injEq] at h
    simp [← h]
  | cons e es ih =>
    simp only [parseEngines] at h
    cases he : parseEngine e with
    | none => rw [he] at h; exact absurd h (by simp)
    | some r =>
      rw [he] at h
      cases hes : parseEngines es with
      | none => rw [hes] at h; exact absurd h (by simp)
      | some rs =>
        rw [hes] at h
        simp only [Option.some.injEq] at h
        rw [← h]
        simp [ih rs hes]

/-- Helper: the engine loop of NewSession parses position by position,
preserving the device-returned order. -/
theorem parseEngines_get (res : List versionRouteEngine)
    (l : List RoutingEngine) (h : parseEngines res = some l)
    (i : Nat) (hi : i < res.length) (hl : i < l.length) :
    parseEngine (res.get ⟨i, hi⟩) = some (l.get ⟨i, hl⟩) := by
  induction res generalizing l i with
  | nil => exact absurd hi (by simp)
  | cons e es ih =>
    simp only [parseEngines] at h
    cases he : parseEngine e with
    | none => rw [he] at h; exact absurd h (by simp)
    | some r =>
      rw [he] at h
      cases hes : parseEngines es with
      | none => rw [hes] at h; exact absurd h (by simp)
      | some rs =>
        rw [hes] at h
        simp only [Option.some.injEq] at h
        subst h
        cases i with
        | zero => simpa using he
        | succ n =>
          have hn : n < es.length := by simpa using hi
          have hnl : n < rs.length := by simpa using hl
          simpa using ih rs hes n hn hnl

/-- C1: the single-engine fixture (host-name "r1", product-model
"mx960", first package comment containing the bracketed token
20.4R3.8) makes NewSession return a session with Hostname "r1",
RoutingEngines 1 and Platform equal to the one-element list with
Model "MX960" (uppercased) and Version "20.4R3.8" (the captured group
of the trailing bracketed pattern). -/
theorem c1_single_engine_session :
    newSessionOutcome (.ok ())
      (.ok { data := fixtureSingleData, errors := none })
      (fun _ => .error "unused") (fun _ => .ok fixtureSingle) =
    .returns (.ok { hostname := "r1", routingEngines := 1,
                    platform := [{ model := "MX960", version := "20.4R3.8" }] }) := by
  rfl

/-- C2: every successful fact parse of NewSession satisfies
RoutingEngines = len(Platform); in the multi-engine branch
RoutingEngines is the number of parsed fragments and the platform list
is the in-order engine parse (position i of the platform list comes
from fragment i); in the single-engine branch RoutingEngines is 1. -/
theorem c2_engine_invariant (r : ParsedReply) (j : Junos)
    (h : newSessionParse r = some j) :
    j.routingEngines = j.platform.length ∧
    (∀ res, r = .multi res →
      j.routingEngines = res.length ∧
      ∀ i (hi : i < res.length) (hj : i < j.platform.length),
        parseEngine (res.get ⟨i, hi⟩) = some (j.platform.get ⟨i, hj⟩)) ∧
    (∀ re, r = .single re → j.routingEngines = 1) := by
  cases r with
  | multi res =>
    simp only [newSessionParse] at h
    cases hh : res.head? with
    | none => rw [hh] at h; exact absurd h (by simp)
    | some first =>
      rw [hh] at h
      cases hp : parseEngines res with
      | none => rw [hp] at h; exact absurd h (by simp)
      | some l =>
        rw [hp] at h
        simp only [Option.some.injEq] at h
        subst h
        refine ⟨by simpa using (parseEngines_length res l hp).symm, ?_, by simp⟩
        intro res' hr
        cases hr
        exact ⟨rfl, fun i hi hj => parseEngines_get res l hp i hi hj⟩
  | single re =>
    simp only [newSessionParse] at h
    cases hp : parseEngine re with
    | none => rw [hp] at h; exact absurd h (by simp)
    | some eng =>
      rw [hp] at h
      simp only [Option.some.injEq] at h
      subst h
      exact ⟨rfl, by simp, fun _ _ => rfl⟩

/-- Witness for C2: a concrete two-engine reply parses successfully and
satisfies the invariant. -/
theorem c2_engine_invariant_witness :
    (Junos.mk "r1" 2 [⟨"MX960", "20.4R3.8"⟩, ⟨"MX960", "20.4R3.8"⟩]).routingEngines =
      (Junos.mk "r1" 2 [⟨"MX960", "20.4R3.8"⟩, ⟨"MX960", "20.4R3.8"⟩]).platform.length :=
  (c2_engine_invariant (.multi [fixtureSingle, fixtureSingle])
    (Junos.mk "r1" 2 [⟨"MX960", "20.4R3.8"⟩, ⟨"MX960", "20.4R3.8"⟩]) rfl).1

/-- Counterexample for C3: at a concrete dial failure, NewSession does
not return at all — it terminates the process via log.Fatal, so the
outcome is fatalExit and not a normal (Session, error) return. -/
theorem c3_dial_failure_counterexample :
    newSessionOutcome (.error "dial tcp 10.0.0.1:830: connection refused")
      (.ok { data := "", errors := none })
      (fun _ => .error "unused") (fun _ => .error "unused") =
      .fatalExit "dial tcp 10.0.0.1:830: connection refused" ∧
    (newSessionOutcome (.error "dial tcp 10.0.0.1:830: connection refused")
      (.ok { data := "", errors := none })
      (fun _ => .error "unused") (fun _ => .error "unused")).isReturns = false :=
  ⟨rfl, rfl⟩

/-- C3 amended: for every failure of the underlying transport dial,
NewSession terminates the process (log.Fatal) with that failure,
instead of returning it through the (Session, error) contract. -/
theorem c3_dial_failure_fatal (e : String) (execResult : Except String RPCReply)
    (um : String → Except String (List versionRouteEngine))
    (us : String → Except String versionRouteEngine) :
    newSessionOutcome (.error e) execResult um us = .fatalExit e :=
  rfl

/-- C10: a reply whose fault list is non-nil but empty is not treated
as an error: RunCommand and CommitHistory behave exactly as with a nil
fault list, and Lock reaches its success path (nil error). -/
theorem c10_empty_fault_list_not_error (d format : String)
    (um : String → Except String String)
    (umh : String → Except String CommitHistory) :
    runCommand format (.ok { data := d, errors := some [] }) um =
      runCommand format (.ok { data := d, errors := none }) um ∧
    lock (.ok { data := d, errors := some [] }) = none ∧
    commitHistoryCall (.ok { data := d, errors := some [] }) umh =
      commitHistoryCall (.ok { data := d, errors := none }) umh :=
  ⟨rfl, rfl, rfl⟩

/-- C4 (code behaviour at the failing input): for the remote URL
"ftp://server/juniper.conf", which contains "tp://" and names no local
file, Config builds the literal-string payload — the URL command
assigned by the substring check is unconditionally overwritten by the
ReadFile branch — so the URL-form template is never what is sent, for
each of the three syntaxes. -/
theorem c4_url_payload_overwritten :
    configCommand (fun _ => .error "open ftp://server/juniper.conf: no such file or directory")
        (.str "ftp://server/juniper.conf") "set" =
      rpcConfigStringSet "ftp://server/juniper.conf" ∧
    configCommand (fun _ => .error "open ftp://server/juniper.conf: no such file or directory")
        (.str "ftp://server/juniper.conf") "text" =
      rpcConfigStringText "ftp://server/juniper.conf" ∧
    configCommand (fun _ => .error "open ftp://server/juniper.conf: no such file or directory")
        (.str "ftp://server/juniper.conf") "xml" =
      rpcConfigStringXML "ftp://server/juniper.conf" ∧
    containsSubstr "ftp://server/juniper.conf" "tp://" = true ∧
    configCommand (fun _ => .error "open ftp://server/juniper.conf: no such file or directory")
        (.str "ftp://server/juniper.conf") "set" ≠
      rpcConfigURLSet "ftp://server/juniper.conf" := by
  refine ⟨rfl, rfl, rfl, rfl, ?_⟩
  decide

/-- Counterexample for C5: at the concrete empty-data fault-free reply,
RunCommand returns a nil error — the diagnostic text is the string
result, not an error value — refuting the claim that both operations
return a non-nil error. -/
theorem c5_empty_reply_counterexample :
    runCommand "text" (.ok { data := "", errors := none })
      (fun _ => .error "unused") = (errMessage, none) :=
  rfl

/-- C5 amended: on a reply with empty data and no fault records,
CommitHistory returns a non-nil error carrying a generic diagnostic,
while RunCommand returns a nil error together with the generic
diagnostic text as its string result. -/
theorem c5_empty_reply_results (format : String) (e : Option (List RPCError))
    (um : String → Except String String)
    (umh : String → Except String CommitHistory)
    (h : firstFault e = none) :
    runCommand format (.ok { data := "", errors := e }) um = (errMessage, none) ∧
    commitHistoryCall (.ok { data := "", errors := e }) umh =
      .error "could not load commit history" := by
  constructor
  · simp [runCommand, h]
  · simp [commitHistoryCall, h]

/-- Witness for C5 amended: the empty-data reply with a non-nil empty
fault list. -/
theorem c5_empty_reply_results_witness :
    runCommand "text" (.ok { data := "", errors := some [] })
        (fun _ => .error "unused") = (errMessage, none) ∧
    commitHistoryCall (.ok { data := "", errors := some [] })
        (fun _ => .error "unused") = .error "could not load commit history" :=
  c5_empty_reply_results "text" (some [])
    (fun _ => .error "unused") (fun _ => .error "unused") rfl

/-- C6: for every format string, the section "full" payload has an
empty configuration element, and the section "system>login" payload
wraps a self-closing login tag inside an open and close system tag pair
(closing tags in reverse order, nesting depth two for the two path
components). -/
theorem c6_get_config_sections (format : String) :
    getConfigCommand "full" format =
      "<get-configuration format=\"" ++ format ++
        "\"><configuration></configuration></get-configuration>" ∧
    getConfigCommand "system>login" format =
      "<get-configuration format=\"" ++ format ++
        "\"><configuration><system><login/></system></configuration></get-configuration>" := by
  constructor
  · simp only [getConfigCommand, if_pos rfl, String.append_assoc]
    rfl
  · simp only [getConfigCommand, if_neg (by decide : ¬("system>login" = "full")),
      String.append_assoc]
    rfl

/-- C7: for every list of literal configuration lines loaded with
syntax "set", the payload joins the lines with exactly one newline and
places the joined text verbatim inside the configuration-set element;
in particular for the two-line fixture of the specification. -/
theorem c7_config_set_literal_lines (fs : String → Except String String)
    (lines : List String) :
    configCommand fs (.strList lines) "set" =
      "<load-configuration action=\"set\" format=\"text\"><configuration-set>" ++
        String.intercalate "\n" lines ++
        "</configuration-set></load-configuration>" ∧
    configCommand fs
        (.strList ["set system host-name R1", "set system domain-name example.com"])
        "set" =
      "<load-configuration action=\"set\" format=\"text\"><configuration-set>set system host-name R1\nset system domain-name example.com</configuration-set></load-configuration>" :=
  ⟨rfl, rfl⟩

/-- C8: whenever the directory-list reply unmarshals with a non-empty
output field, Files returns the error naming the requested path and no
FileList value. -/
theorem c8_files_no_such_file (path d : String) (fl : FileList)
    (um : String → Except String FileList)
    (hd : d ≠ "") (hu : um (goRemoveNewlines d) = .ok fl)
    (he : 0 < fl.error.length) :
    filesCall path (.ok { data := d, errors := none }) um =
      .error (path ++ ": No such file or directory") := by
  simp [filesCall, firstFault, hd, hu, he]

/-- Witness for C8: a concrete reply whose output field is set. -/
theorem c8_files_no_such_file_witness :
    filesCall "/var/tmp/missing"
      (.ok { data := "<directory-list><output>could not resolve</output></directory-list>",
             errors := none })
      (fun _ => .ok { path := "", total := "",
                      files := [], error := "could not resolve" }) =
      .error "/var/tmp/missing: No such file or directory" :=
  c8_files_no_such_file "/var/tmp/missing"
    "<directory-list><output>could not resolve</output></directory-list>"
    { path := "", total := "", files := [], error := "could not resolve" }
    (fun _ => .ok { path := "", total := "",
                    files := [], error := "could not resolve" })
    (by decide) rfl (by decide)

/-- C9: for every action other than exactly "delete" — misspellings and
the empty string included — Rescue builds the save-rescue-configuration
payload and behaves exactly as the "save" action does on the same
session: the stated input domain is not enforced and no out-of-domain
error exists. -/
theorem c9_rescue_defaults_to_save (action : String)
    (exec : String → Except String RPCReply) (h : action ≠ "delete") :
    rescueCommand action = rpcRescueSave ∧
    rescue action exec = rescue "save" exec := by
  have hc : rescueCommand action = rpcRescueSave := by
    simp [rescueCommand, h]
  refine ⟨hc, ?_⟩
  simp only [rescue, rescueCommand, if_neg h,
    if_neg (by decide : ¬("save" = "delete"))]

/-- Witness for C9: the misspelled action "svae". -/
theorem c9_rescue_defaults_to_save_witness :
    rescueCommand "svae" = rpcRescueSave ∧
    rescue "svae" (fun _ => .ok { data := "<ok/>", errors := none }) =
      rescue "save" (fun _ => .ok { data := "<ok/>", errors := none }) :=
  c9_rescue_defaults_to_save "svae"
    (fun _ => .ok { data := "<ok/>", errors := none }) (by decide)

end GoJunos
